import Mathlib

/-!
Verification of `generate_dashboard_assets.py` (Incident-Image-Taking-System).

The script loads two CSV tables (observations, incidents), computes an
open/closed tally, renders bar / time-series charts, optionally trains a
logistic-regression model on a derived high-risk label, and writes a JSON
summary plus image assets.

Shallow embedding conventions:
* A pandas `DataFrame` is a header (list of column names) plus rows of cells;
  a cell is `Option String` (`none` models NaN / a missing value).
* `pd.to_numeric(..., errors="coerce")` is modelled by integer parsing of the
  trimmed cell (the severity / likelihood scores the script compares with 7);
  a cell that does not parse becomes `none`, exactly the NaN coercion.
* `pd.to_datetime(..., errors="coerce")` is modelled by a parser for ISO
  `YYYY-MM-DD` strings returning the key `y*10000 + m*100 + d` (which orders
  chronologically); any other shape is coerced to `none` and later dropped.
* File writes are modelled by recording the file name in a list; the sklearn
  pipeline fit is external library code and is abstracted by an accuracy
  oracle `fit : DataFrame → ℚ` (no claim depends on the fitted value).
* Sorting done by pandas (`sort_values`, `sort_index`) is modelled with
  `List.insertionSort`, a stable sort.
-/

/-- A loaded CSV table: column names plus rows of optional string cells.
`none` models a missing value (NaN). Rows may be ragged; a cell beyond a
row's length reads as missing. -/
structure DataFrame where
  header : List String
  rows : List (List (Option String))
deriving Repr, DecidableEq

/-- `col in df.columns` in pandas. -/
def DataFrame.hasCol (df : DataFrame) (c : String) : Bool :=
  df.header.contains c

/-- The column `df[c]` as a list of cells, one per row.  When the column is
absent every cell reads as missing (the script only extracts columns it has
checked for, so this default is never observed). -/
def DataFrame.col (df : DataFrame) (c : String) : List (Option String) :=
  match df.header.indexOf? c with
  | some i => df.rows.map (fun r => r.getD i none)
  | none => List.replicate df.rows.length none

/-- `next((col for col in cands if col in df.columns), None)`: the first
candidate column name present in the table. -/
def resolveCol (df : DataFrame) (cands : List String) : Option String :=
  cands.find? (fun c => df.hasCol c)

/-- Python `str.strip()` on the character list of a string: drop leading and
trailing whitespace. -/
def pyStrip (cs : List Char) : List Char :=
  ((cs.dropWhile Char.isWhitespace).reverse.dropWhile Char.isWhitespace).reverse

/-- Numeric value of a list of decimal digit characters. -/
def digitsVal (cs : List Char) : Nat :=
  cs.foldl (fun n c => n * 10 + (c.toNat - 48)) 0

/-- `pd.to_numeric(series, errors="coerce")` applied to one cell, restricted
to (optionally signed) integer literals — the only numeric shape the script
compares against the threshold 7.  A missing cell or a cell that is not an
integer literal coerces to `none` (NaN). -/
def toNum (v : Option String) : Option Int :=
  v.bind fun s =>
    match pyStrip s.toList with
    | [] => none
    | '-' :: ds =>
      if ds ≠ [] ∧ ds.all Char.isDigit then some (-(digitsVal ds : Int)) else none
    | ds =>
      if ds ≠ [] ∧ ds.all Char.isDigit then some ((digitsVal ds : Int)) else none

/-- `_compute_open_closed_observations`:
```
total = int(len(observations))
action_col = next((col for col in ["Action Taken", "Action taken"] ...), None)
if not action_col:
    return total, 0, total
action = observations[action_col].fillna("").astype(str)
closed = int((action.str.strip().str.len() > 0).sum())
open_ = total - closed
return total, open_, closed
```
Result triple is `(total, open, closed)` in that order, as unpacked by the
caller `total, open_, closed = _compute_open_closed_observations(obs_df)`. -/
def computeOpenClosedObservations (df : DataFrame) : Nat × Nat × Nat :=
  let total := df.rows.length
  match resolveCol df ["Action Taken", "Action taken"] with
  | none => (total, 0, total)
  | some c =>
    let action := (df.col c).map (fun v => v.getD "")
    let closed := action.countP (fun s => (pyStrip s.toList).length > 0)
    (total, total - closed, closed)

/-- Column length always matches the row count. -/
theorem DataFrame.col_length (df : DataFrame) (c : String) :
    (df.col c).length = df.rows.length := by
  unfold DataFrame.col
  cases df.header.indexOf? c <;> simp

example : computeOpenClosedObservations ⟨["x"], [[some "a"], [some "b"]]⟩ = (2, 0, 2) := by decide

example : computeOpenClosedObservations
    ⟨["Action Taken"], [[some ""], [some "closed on 3/1"], [some "  "], [some "yes"]]⟩
    = (4, 2, 2) := by decide

/-! ## Risk model trainer (`_train_simple_incident_model`) -/

def possibleSevCols : List String := ["Severity", "severityScore", "Severity Score"]

def possibleLikeCols : List String := ["Likelihood", "likelihoodScore", "Likelihood Score"]

def categoricalCandidates : List String := ["Category", "Department", "Site / Project", "Location"]

/-- The `ModelMetrics` dataclass of the script.  `accuracy = none` models the
Python default `accuracy: Optional[float] = None`. -/
structure ModelMetrics where
  enabled : Bool
  model : String
  target : String
  rows : Nat
  accuracy : Option ℚ
deriving Repr, DecidableEq

/-- `sev = to_num(sev_col) if sev_col else pd.Series([None] * len(df))`:
the severity column coerced to numeric, or an all-missing series. -/
def incidentSevSeries (df : DataFrame) : List (Option Int) :=
  match resolveCol df possibleSevCols with
  | some c => (df.col c).map toNum
  | none => List.replicate df.rows.length none

/-- Likelihood analogue of `incidentSevSeries`. -/
def incidentLikeSeries (df : DataFrame) : List (Option Int) :=
  match resolveCol df possibleLikeCols with
  | some c => (df.col c).map toNum
  | none => List.replicate df.rows.length none

/-- One row of `y = ((sev.fillna(0) >= 7) | (like.fillna(0) >= 7))`. -/
def highRisk (sev likelihood : Option Int) : Bool :=
  (7 ≤ sev.getD 0) || (7 ≤ likelihood.getD 0)

/-- The derived label series `y`, one boolean per row. -/
def incidentLabels (df : DataFrame) : List Bool :=
  List.zipWith highRisk (incidentSevSeries df) (incidentLikeSeries df)

/-- `feature_cols`: the resolved severity column, then the resolved
likelihood column if distinct, then each present categorical candidate not
already listed. -/
def incidentFeatureCols (df : DataFrame) : List String :=
  let sevCol := resolveCol df possibleSevCols
  let likeCol := resolveCol df possibleLikeCols
  let base := sevCol.toList ++ likeCol.toList.filter (fun c => !sevCol.toList.contains c)
  base ++ categoricalCandidates.filter (fun c => df.hasCol c && !base.contains c)

/-- `_train_simple_incident_model`.  The sklearn preprocessing pipeline, the
stratified 75/25 split, the logistic-regression fit and the held-out scoring
are external library computation; they are abstracted by the oracle `fit`,
which receives the table, the assembled feature columns and the label series
and yields the reported accuracy.  Everything up to that call — column
resolution, numeric coercion, label derivation, and the two disabled exits —
is translated from the script:
```
if sev_col is None and like_col is None:
    return ModelMetrics(enabled=False, ..., rows=int(len(incidents)))
...
y = ((sev.fillna(0) >= 7) | (like.fillna(0) >= 7)).astype(int)
if y.nunique() < 2:
    return ModelMetrics(enabled=False, ..., rows=int(len(df)))
...
return ModelMetrics(enabled=True, ..., rows=int(len(df)), accuracy=acc)
``` -/
def trainSimpleIncidentModel (fit : DataFrame → List String → List Bool → ℚ)
    (df : DataFrame) : ModelMetrics :=
  let sevCol := resolveCol df possibleSevCols
  let likeCol := resolveCol df possibleLikeCols
  if sevCol = none ∧ likeCol = none then
    ⟨false, "LogisticRegression", "high_risk", df.rows.length, none⟩
  else
    let y := incidentLabels df
    if y.dedup.length < 2 then
      ⟨false, "LogisticRegression", "high_risk", df.rows.length, none⟩
    else
      ⟨true, "LogisticRegression", "high_risk", df.rows.length,
        some (fit df (incidentFeatureCols df) y)⟩

example :
    trainSimpleIncidentModel (fun _ _ _ => 1)
      ⟨["Severity"], [[some "3"], [some "9"]]⟩
    = ⟨true, "LogisticRegression", "high_risk", 2, some 1⟩ := by decide

example :
    trainSimpleIncidentModel (fun _ _ _ => 1)
      ⟨["Severity"], [[some "3"], [some "5"]]⟩
    = ⟨false, "LogisticRegression", "high_risk", 2, none⟩ := by decide

example :
    trainSimpleIncidentModel (fun _ _ _ => 1)
      ⟨["Date"], [[some "x"], [some "y"]]⟩
    = ⟨false, "LogisticRegression", "high_risk", 2, none⟩ := by decide

/-! ## Chart pipelines (`_plot_bar`, `_plot_incidents_over_time`) -/

/-- Helper for `uniqList`: `seen` collects values already emitted. -/
def uniqAux {α : Type} [DecidableEq α] : List α → List α → List α
  | [], _ => []
  | x :: xs, seen =>
    if seen.contains x then uniqAux xs seen else x :: uniqAux xs (x :: seen)

/-- Distinct values of a list in order of first appearance. -/
def uniqList {α : Type} [DecidableEq α] (l : List α) : List α :=
  uniqAux l []

/-- Sort key for pairs: second component (the count) ascending. -/
def byCountLE (a b : String × Nat) : Prop := a.2 ≤ b.2

/-- Sort key for pairs: second component (the count) descending. -/
def byCountGE (a b : String × Nat) : Prop := b.2 ≤ a.2

/-- Sort key for date/count pairs: first component (the date) ascending. -/
def byDateLE (a b : Nat × Nat) : Prop := a.1 ≤ b.1

instance : DecidableRel byCountLE := fun a b => Nat.decLe a.2 b.2

instance : DecidableRel byCountGE := fun a b => Nat.decLe b.2 a.2

instance : DecidableRel byDateLE := fun a b => Nat.decLe a.1 b.1

instance : IsTotal (String × Nat) byCountLE := ⟨fun a b => Nat.le_total a.2 b.2⟩

instance : IsTrans (String × Nat) byCountLE := ⟨fun _ _ _ => Nat.le_trans⟩

instance : IsTotal (String × Nat) byCountGE := ⟨fun a b => Nat.le_total b.2 a.2⟩

instance : IsTrans (String × Nat) byCountGE := ⟨fun _ _ _ h h2 => Nat.le_trans h2 h⟩

instance : IsTotal (Nat × Nat) byDateLE := ⟨fun a b => Nat.le_total a.1 b.1⟩

instance : IsTrans (Nat × Nat) byDateLE := ⟨fun _ _ _ => Nat.le_trans⟩

/-- `series.value_counts()`: frequency of each distinct value, sorted by
count descending (stable, so ties keep first-appearance order). -/
def valueCounts (s : List String) : List (String × Nat) :=
  List.insertionSort byCountGE ((uniqList s).map (fun v => (v, s.count v)))

/-- The data `_plot_bar` draws:
`s = series.dropna(); s = s.astype(str); counts = s.value_counts().head(top_n)`
then `counts.sort_values().plot(kind="barh")` — the bars in their plotted
(ascending-by-count) order.  Cells are already strings, so `astype(str)` is
the identity. -/
def plotBarCounts (cells : List (Option String)) (topN : Nat) : List (String × Nat) :=
  let s := cells.filterMap id
  List.insertionSort byCountLE ((valueCounts s).take topN)

/-- `_plot_bar` as called by `main` (default `top_n=10`), with the write of
the image modelled in `Except`: plotting an empty frequency series raises
(pandas refuses to plot no data), which aborts the run like any unhandled
error; otherwise exactly one image is produced, carrying these bars. -/
def plotBar (cells : List (Option String)) : Except String (List (String × Nat)) :=
  let counts := plotBarCounts cells 10
  if counts.isEmpty then Except.error "no numeric data to plot" else Except.ok counts

/-- `pd.to_datetime(cell, errors="coerce").date()` restricted to ISO
`YYYY-MM-DD` strings: the key `y*10000 + m*100 + d` (which orders like the
calendar date); everything else coerces to `none` (NaT). -/
def parseDate (s : String) : Option Nat :=
  match s.toList with
  | [y1, y2, y3, y4, h1, m1, m2, h2, d1, d2] =>
    if ([y1, y2, y3, y4, m1, m2, d1, d2].all Char.isDigit) ∧ h1 = '-' ∧ h2 = '-' then
      let m := digitsVal [m1, m2]
      let d := digitsVal [d1, d2]
      if 1 ≤ m ∧ m ≤ 12 ∧ 1 ≤ d ∧ d ≤ 31 then
        some (digitsVal [y1, y2, y3, y4] * 10000 + m * 100 + d)
      else none
    else none
  | _ => none

/-- The parsed, non-missing dates of a column:
`dates = pd.to_datetime(df[date_col], errors="coerce"); dates = dates.dropna().dt.date`. -/
def validDates (cells : List (Option String)) : List Nat :=
  (cells.map (fun v => v.bind parseDate)).filterMap id

/-- The series `_plot_incidents_over_time` draws:
`counts = dates.value_counts().sort_index()` — per-date counts in
chronological order (`sort_index` discards the `value_counts` order, so the
model counts the distinct dates and sorts by date). -/
def incidentDateCounts (cells : List (Option String)) : List (Nat × Nat) :=
  let dates := validDates cells
  List.insertionSort byDateLE ((uniqList dates).map (fun d => (d, dates.count d)))

/-- `_plot_incidents_over_time`: returns silently (producing no image) when
the column is absent or no valid dates remain; otherwise writes one image
with the chronological daily counts.  `some counts` models the image being
produced. -/
def plotIncidentsOverTime (df : DataFrame) (dateCol : String) : Option (List (Nat × Nat)) :=
  if df.hasCol dateCol then
    let dates := validDates (df.col dateCol)
    if dates.isEmpty then none
    else some (incidentDateCounts (df.col dateCol))
  else none

example :
    plotBarCounts [some "A", some "A", some "A", some "B", some "B", some "C"] 10
    = [("C", 1), ("B", 2), ("A", 3)] := by decide

example :
    incidentDateCounts
      [some "2024-01-01", some "2024-01-01", some "not-a-date", some "2024-01-02"]
    = [(20240101, 2), (20240102, 1)] := by decide

/-! ## The `main` driver -/

/-- Date column candidates tried by `main` for the incidents chart. -/
def dateCandidates : List String := ["Incident Date", "Date", "incidentDate", "incident_date"]

/-- The `summary["observations"]` block: either
`{rows, total, open, closed}` when the CSV was loaded, or
`{rows: 0, note: "Observations CSV not found"}`. -/
inductive ObsBlock where
  | present (rows total openCount closed : Nat)
  | missing
deriving Repr, DecidableEq

/-- The `rows` field of the observations block. -/
def ObsBlock.rowsReported : ObsBlock → Nat
  | .present r _ _ _ => r
  | .missing => 0

/-- The `summary["incidents"]` block: `{rows}` or
`{rows: 0, note: "Incidents CSV not found"}`. -/
inductive IncBlock where
  | present (rows : Nat)
  | missing
deriving Repr, DecidableEq

/-- The `rows` field of the incidents block. -/
def IncBlock.rowsReported : IncBlock → Nat
  | .present r => r
  | .missing => 0

/-- What one run leaves behind: the summary blocks, the `assets` mapping in
insertion order, and the image files written (by name). -/
structure RunResult where
  observations : ObsBlock
  incidents : IncBlock
  model : ModelMetrics
  assets : List (String × String)
  images : List String
deriving Repr, DecidableEq

/-- `main`, with file existence modelled by the two `Option DataFrame`
arguments (the parsed CSV when the path exists).  Chart writes append to
`images`; every `summary["assets"][k] = url` appends to `assets`.  Note the
incidents-chart section registers the `incidentsOverTime` asset whenever a
date column resolves, regardless of whether `_plot_incidents_over_time`
produced an image:
```
if date_col:
    _plot_incidents_over_time(inc_df, date_col, out_path)
    summary["assets"]["incidentsOverTime"] = "/dashboard-assets/incidents_over_time.png"
``` -/
def runMain (obs inc : Option DataFrame)
    (fit : DataFrame → List String → List Bool → ℚ) : Except String RunResult := do
  let mut assets : List (String × String) := []
  let mut images : List String := []
  let mut obsBlock := ObsBlock.missing
  match obs with
  | some df =>
    let (total, open_, closed) := computeOpenClosedObservations df
    obsBlock := ObsBlock.present df.rows.length total open_ closed
    if df.hasCol "Observation Type" then
      let _ ← plotBar (df.col "Observation Type")
      images := images ++ ["observations_by_type.png"]
      assets := assets ++ [("observationsByType", "/dashboard-assets/observations_by_type.png")]
    if df.hasCol "Site / Location" then
      let _ ← plotBar (df.col "Site / Location")
      images := images ++ ["observations_by_site.png"]
      assets := assets ++ [("observationsBySite", "/dashboard-assets/observations_by_site.png")]
  | none => obsBlock := ObsBlock.missing
  let mut incBlock := IncBlock.missing
  let mut model : ModelMetrics := ⟨false, "LogisticRegression", "high_risk", 0, none⟩
  match inc with
  | some df =>
    incBlock := IncBlock.present df.rows.length
    match resolveCol df dateCandidates with
    | some dc =>
      if (plotIncidentsOverTime df dc).isSome then
        images := images ++ ["incidents_over_time.png"]
      assets := assets ++ [("incidentsOverTime", "/dashboard-assets/incidents_over_time.png")]
    | none => pure ()
    model := trainSimpleIncidentModel fit df
  | none =>
    incBlock := IncBlock.missing
    model := ⟨false, "LogisticRegression", "high_risk", 0, none⟩
  return ⟨obsBlock, incBlock, model, assets, images⟩

example :
    runMain none none (fun _ _ _ => 1)
    = Except.ok ⟨ObsBlock.missing, IncBlock.missing,
        ⟨false, "LogisticRegression", "high_risk", 0, none⟩, [], []⟩ := rfl

example :
    runMain none (some ⟨["Date"], [[some "not-a-date"]]⟩) (fun _ _ _ => 1)
    = Except.ok ⟨ObsBlock.missing, IncBlock.present 1,
        ⟨false, "LogisticRegression", "high_risk", 1, none⟩,
        [("incidentsOverTime", "/dashboard-assets/incidents_over_time.png")], []⟩ := rfl

/-! ## Helper lemmas -/

theorem mem_uniqAux {α : Type} [DecidableEq α] (l : List α) (seen : List α) (x : α) :
    x ∈ uniqAux l seen ↔ x ∈ l ∧ x ∉ seen := by
  induction l generalizing seen with
  | nil => simp [uniqAux]
  | cons a as ih =>
    by_cases h : seen.contains a
    · rw [uniqAux, if_pos h, ih]
      have ha : a ∈ seen := by simpa using h
      simp only [List.mem_cons]
      constructor
      · rintro ⟨hx, hs⟩
        exact ⟨Or.inr hx, hs⟩
      · rintro ⟨hx, hs⟩
        rcases hx with rfl | hx
        · exact absurd ha hs
        · exact ⟨hx, hs⟩
    · rw [uniqAux, if_neg h, List.mem_cons, ih]
      have ha : a ∉ seen := by simpa using h
      simp only [List.mem_cons]
      constructor
      · rintro (rfl | ⟨hx, hs⟩)
        · exact ⟨Or.inl rfl, ha⟩
        · exact ⟨Or.inr hx, fun hxs => hs (Or.inr hxs)⟩
      · rintro ⟨hx, hs⟩
        by_cases hxa : x = a
        · exact Or.inl hxa
        · rcases hx with rfl | hx
          · exact Or.inl rfl
          · refine Or.inr ⟨hx, fun hxs => ?_⟩
            rcases hxs with rfl | hxs
            · exact hxa rfl
            · exact hs hxs

theorem mem_uniqList {α : Type} [DecidableEq α] (l : List α) (x : α) :
    x ∈ uniqList l ↔ x ∈ l := by
  rw [uniqList, mem_uniqAux]
  simp

theorem uniqAux_nodup {α : Type} [DecidableEq α] (l : List α) (seen : List α) :
    (uniqAux l seen).Nodup := by
  induction l generalizing seen with
  | nil => simp [uniqAux]
  | cons a as ih =>
    by_cases h : seen.contains a
    · rw [uniqAux, if_pos h]
      exact ih seen
    · rw [uniqAux, if_neg h, List.nodup_cons]
      refine ⟨fun hmem => ?_, ih (a :: seen)⟩
      exact ((mem_uniqAux as (a :: seen) a).mp hmem).2 (List.mem_cons_self a seen)

theorem uniqList_nodup {α : Type} [DecidableEq α] (l : List α) : (uniqList l).Nodup :=
  uniqAux_nodup l []

theorem mem_valueCounts {s : List String} {v : String} {k : Nat}
    (h : (v, k) ∈ valueCounts s) : k = s.count v ∧ v ∈ s := by
  have h2 : (v, k) ∈ (uniqList s).map (fun w => (w, s.count w)) :=
    (List.perm_insertionSort byCountGE _).mem_iff.mp h
  rcases List.mem_map.mp h2 with ⟨w, hw, heq⟩
  obtain ⟨rfl, rfl⟩ : w = v ∧ s.count w = k := by
    constructor
    · exact congrArg Prod.fst heq
    · exact congrArg Prod.snd heq
  exact ⟨rfl, (mem_uniqList s w).mp hw⟩

theorem valueCounts_sorted (s : List String) : List.Sorted byCountGE (valueCounts s) :=
  List.sorted_insertionSort byCountGE _

theorem mem_plotBarCounts {cells : List (Option String)} {n : Nat} {v : String} {k : Nat}
    (h : (v, k) ∈ plotBarCounts cells n) :
    k = (cells.filterMap id).count v ∧ v ∈ cells.filterMap id := by
  have h2 : (v, k) ∈ (valueCounts (cells.filterMap id)).take n :=
    (List.perm_insertionSort byCountLE _).mem_iff.mp h
  exact mem_valueCounts (List.mem_of_mem_take h2)

theorem plotBarCounts_sorted (cells : List (Option String)) (n : Nat) :
    List.Sorted byCountLE (plotBarCounts cells n) :=
  List.sorted_insertionSort byCountLE _

theorem plotBarCounts_length_le (cells : List (Option String)) (n : Nat) :
    (plotBarCounts cells n).length ≤ n := by
  have h : (plotBarCounts cells n).length =
      ((valueCounts (cells.filterMap id)).take n).length :=
    (List.perm_insertionSort byCountLE _).length_eq
  rw [h]
  exact List.length_take_le n _

theorem plotBarCounts_dominates {cells : List (Option String)} {n : Nat}
    {v w : String} {k j : Nat}
    (hin : (v, k) ∈ plotBarCounts cells n)
    (hw : (w, j) ∈ valueCounts (cells.filterMap id))
    (hout : (w, j) ∉ plotBarCounts cells n) : j ≤ k := by
  have hvk : (v, k) ∈ (valueCounts (cells.filterMap id)).take n :=
    (List.perm_insertionSort byCountLE _).mem_iff.mp hin
  have hwd : (w, j) ∈ (valueCounts (cells.filterMap id)).drop n := by
    have hsplit := List.take_append_drop n (valueCounts (cells.filterMap id))
    have : (w, j) ∈ (valueCounts (cells.filterMap id)).take n ++
        (valueCounts (cells.filterMap id)).drop n := by rw [hsplit]; exact hw
    rcases List.mem_append.mp this with h1 | h1
    · exact absurd ((List.perm_insertionSort byCountLE _).mem_iff.mpr h1) hout
    · exact h1
  exact (valueCounts_sorted (cells.filterMap id)).rel_of_mem_take_of_mem_drop hvk hwd

theorem mem_incidentDateCounts {cells : List (Option String)} {d k : Nat}
    (h : (d, k) ∈ incidentDateCounts cells) :
    k = (validDates cells).count d ∧ d ∈ validDates cells := by
  have h2 : (d, k) ∈ (uniqList (validDates cells)).map
      (fun e => (e, (validDates cells).count e)) :=
    (List.perm_insertionSort byDateLE _).mem_iff.mp h
  rcases List.mem_map.mp h2 with ⟨e, he, heq⟩
  obtain ⟨rfl, rfl⟩ : e = d ∧ (validDates cells).count e = k := by
    constructor
    · exact congrArg Prod.fst heq
    · exact congrArg Prod.snd heq
  exact ⟨rfl, (mem_uniqList _ e).mp he⟩

theorem incidentDateCounts_complete {cells : List (Option String)} {d : Nat}
    (h : d ∈ validDates cells) :
    (d, (validDates cells).count d) ∈ incidentDateCounts cells := by
  refine (List.perm_insertionSort byDateLE _).mem_iff.mpr ?_
  exact List.mem_map.mpr ⟨d, (mem_uniqList _ d).mpr h, rfl⟩

theorem incidentDateCounts_sorted (cells : List (Option String)) :
    List.Sorted byDateLE (incidentDateCounts cells) :=
  List.sorted_insertionSort byDateLE _

theorem incidentDateCounts_keys_nodup (cells : List (Option String)) :
    ((incidentDateCounts cells).map Prod.fst).Nodup := by
  have hperm : ((incidentDateCounts cells).map Prod.fst).Perm
      (((uniqList (validDates cells)).map
        (fun e => (e, (validDates cells).count e))).map Prod.fst) :=
    (List.perm_insertionSort byDateLE _).map Prod.fst
  rw [hperm.nodup_iff]
  have h2 : List.map Prod.fst ((uniqList (validDates cells)).map
      (fun e => (e, (validDates cells).count e))) = uniqList (validDates cells) := by
    rw [List.map_map]
    exact List.map_id _
  rw [h2]
  exact uniqList_nodup (validDates cells)

theorem incidentSevSeries_length (df : DataFrame) :
    (incidentSevSeries df).length = df.rows.length := by
  unfold incidentSevSeries
  cases hr : resolveCol df possibleSevCols <;> simp [DataFrame.col_length]

theorem incidentLikeSeries_length (df : DataFrame) :
    (incidentLikeSeries df).length = df.rows.length := by
  unfold incidentLikeSeries
  cases hr : resolveCol df possibleLikeCols <;> simp [DataFrame.col_length]

theorem incidentLabels_length (df : DataFrame) :
    (incidentLabels df).length = df.rows.length := by
  rw [incidentLabels, List.length_zipWith, incidentSevSeries_length,
    incidentLikeSeries_length]
  exact Nat.min_self _

/-- The claim-side reading of one row's severity: the cell of the resolved
severity column coerced to numeric (`none` when the column is absent, the
cell is missing, or the cell is non-numeric). -/
def rowSeverity (df : DataFrame) (i : Nat) : Option Int :=
  match resolveCol df possibleSevCols with
  | some c => toNum ((df.col c).getD i none)
  | none => none

/-- Likelihood analogue of `rowSeverity`. -/
def rowLikelihood (df : DataFrame) (i : Nat) : Option Int :=
  match resolveCol df possibleLikeCols with
  | some c => toNum ((df.col c).getD i none)
  | none => none

theorem incidentSevSeries_getElem? (df : DataFrame) (i : Nat) (h : i < df.rows.length) :
    (incidentSevSeries df)[i]? = some (rowSeverity df i) := by
  unfold incidentSevSeries rowSeverity
  cases hr : resolveCol df possibleSevCols with
  | none => simp [List.getElem?_replicate, h]
  | some c =>
    have hc : i < (df.col c).length := by rw [DataFrame.col_length]; exact h
    rw [List.getElem?_map, List.getElem?_eq_getElem hc]
    show some (toNum ((df.col c).get ⟨i, hc⟩)) = some (toNum ((df.col c).getD i none))
    rw [List.getD_eq_getElem?_getD, List.getElem?_eq_getElem hc]
    rfl

theorem incidentLikeSeries_getElem? (df : DataFrame) (i : Nat) (h : i < df.rows.length) :
    (incidentLikeSeries df)[i]? = some (rowLikelihood df i) := by
  unfold incidentLikeSeries rowLikelihood
  cases hr : resolveCol df possibleLikeCols with
  | none => simp [List.getElem?_replicate, h]
  | some c =>
    have hc : i < (df.col c).length := by rw [DataFrame.col_length]; exact h
    rw [List.getElem?_map, List.getElem?_eq_getElem hc]
    show some (toNum ((df.col c).get ⟨i, hc⟩)) = some (toNum ((df.col c).getD i none))
    rw [List.getD_eq_getElem?_getD, List.getElem?_eq_getElem hc]
    rfl

theorem incidentLabels_getElem? (df : DataFrame) (i : Nat) (h : i < df.rows.length) :
    (incidentLabels df)[i]? = some (highRisk (rowSeverity df i) (rowLikelihood df i)) := by
  rw [incidentLabels, List.getElem?_zipWith,
    incidentSevSeries_getElem? df i h, incidentLikeSeries_getElem? df i h]

/-! ## Claim theorems -/

/-- C1: the claim states that with no action-taken column the tally is
`(total, open, closed) = (n, n, 0)` — all rows open, closed count zero.
The code's absent-column branch is `return total, 0, total`, i.e. open = 0
and closed = n: evaluated on a 2-row table with no action-taken column the
tally is `(2, 0, 2)`, which differs from the claimed `(2, 2, 0)`. -/
theorem c1_no_action_column_tally_eval :
    computeOpenClosedObservations
      ⟨["Description"], [[some "slip hazard"], [some "loose railing"]]⟩ = (2, 0, 2) ∧
    ((2, 0, 2) : Nat × Nat × Nat) ≠ (2, 2, 0) := by
  exact ⟨by decide, by decide⟩

/-- C2: on every incidents table in which a severity or likelihood column
resolves, row `i` of the derived label is high-risk exactly when the row's
severity value (missing or non-numeric read as 0) is ≥ 7 or its likelihood
value (missing or non-numeric read as 0) is ≥ 7. -/
theorem c2_high_risk_label_iff (df : DataFrame) (i : Nat)
    (h : i < df.rows.length)
    (hres : resolveCol df possibleSevCols ≠ none ∨ resolveCol df possibleLikeCols ≠ none) :
    ((incidentLabels df)[i]? = some true ↔
      7 ≤ (rowSeverity df i).getD 0 ∨ 7 ≤ (rowLikelihood df i).getD 0) := by
  rw [incidentLabels_getElem? df i h]
  rw [Option.some_inj, highRisk, Bool.or_eq_true, decide_eq_true_iff, decide_eq_true_iff]

/-- C2 witness: a single-row table with `Severity = "8"` is labelled
high-risk, via `c2_high_risk_label_iff` at row 0. -/
theorem c2_high_risk_label_iff_witness :
    (incidentLabels ⟨["Severity"], [[some "8"]]⟩)[0]? = some true :=
  (c2_high_risk_label_iff ⟨["Severity"], [[some "8"]]⟩ 0 (by decide)
    (Or.inl (by decide))).mpr (Or.inl (by decide))

/-- C3: when none of the severity candidates and none of the likelihood
candidates are present, the trainer returns a disabled result whose row
count is the table's row count and whose accuracy is absent, for every
accuracy oracle. -/
theorem c3_disabled_no_signal (df : DataFrame)
    (fit : DataFrame → List String → List Bool → ℚ)
    (hs : resolveCol df possibleSevCols = none)
    (hl : resolveCol df possibleLikeCols = none) :
    trainSimpleIncidentModel fit df =
      ⟨false, "LogisticRegression", "high_risk", df.rows.length, none⟩ := by
  simp [trainSimpleIncidentModel, hs, hl]

/-- C3 witness: a 2-row incidents table with only a `Date` column yields the
disabled-no-signal result with `rows = 2` and no accuracy. -/
theorem c3_disabled_no_signal_witness :
    trainSimpleIncidentModel (fun _ _ _ => 0) ⟨["Date"], [[some "a"], [some "b"]]⟩ =
      ⟨false, "LogisticRegression", "high_risk", 2, none⟩ :=
  c3_disabled_no_signal ⟨["Date"], [[some "a"], [some "b"]]⟩ (fun _ _ _ => 0)
    (by decide) (by decide)

/-- C4: when a severity or likelihood column resolves but the derived label
has fewer than two distinct values, the trainer returns the disabled result
(no accuracy), independently of the accuracy oracle — so no model is fit. -/
theorem c4_disabled_degenerate (df : DataFrame)
    (fit : DataFrame → List String → List Bool → ℚ)
    (hres : ¬(resolveCol df possibleSevCols = none ∧ resolveCol df possibleLikeCols = none))
    (hdeg : (incidentLabels df).dedup.length < 2) :
    trainSimpleIncidentModel fit df =
      ⟨false, "LogisticRegression", "high_risk", df.rows.length, none⟩ := by
  simp only [trainSimpleIncidentModel]
  rw [if_neg hres, if_pos hdeg]

/-- C4 witness: a table with a single `Severity` column whose values are all
below 7 derives a constant label and yields the disabled result. -/
theorem c4_disabled_degenerate_witness :
    trainSimpleIncidentModel (fun _ _ _ => 0) ⟨["Severity"], [[some "3"], [some "5"]]⟩ =
      ⟨false, "LogisticRegression", "high_risk", 2, none⟩ :=
  c4_disabled_degenerate ⟨["Severity"], [[some "3"], [some "5"]]⟩ (fun _ _ _ => 0)
    (by decide) (by decide)

/-- Evaluation of the tally when no action-taken column resolves. -/
theorem computeOpenClosed_no_col (df : DataFrame)
    (hc : resolveCol df ["Action Taken", "Action taken"] = none) :
    computeOpenClosedObservations df = (df.rows.length, 0, df.rows.length) := by
  unfold computeOpenClosedObservations
  rw [hc]

/-- Evaluation of the tally when an action-taken column resolves. -/
theorem computeOpenClosed_col (df : DataFrame) (c : String)
    (hc : resolveCol df ["Action Taken", "Action taken"] = some c) :
    computeOpenClosedObservations df =
      (df.rows.length,
       df.rows.length - ((df.col c).map (fun v => v.getD "")).countP
         (fun s => (pyStrip s.toList).length > 0),
       ((df.col c).map (fun v => v.getD "")).countP
         (fun s => (pyStrip s.toList).length > 0)) := by
  unfold computeOpenClosedObservations
  rw [hc]

/-- C5: the claim states a chart's public URL is recorded only when its
image file was actually produced.  The code violates this for the incidents
time-series: with an incidents table whose `Date` column holds only the
unparseable value `"not-a-date"`, `_plot_incidents_over_time` produces no
image (every entry coerces to missing), yet `main` still records the
`incidentsOverTime` asset — the run ends with the asset mapping populated
and no image written, for every accuracy oracle. -/
theorem c5_phantom_incidents_asset :
    (∀ fit : DataFrame → List String → List Bool → ℚ,
      runMain none (some ⟨["Date"], [[some "not-a-date"]]⟩) fit =
        Except.ok ⟨ObsBlock.missing, IncBlock.present 1,
          ⟨false, "LogisticRegression", "high_risk", 1, none⟩,
          [("incidentsOverTime", "/dashboard-assets/incidents_over_time.png")], []⟩) ∧
    plotIncidentsOverTime ⟨["Date"], [[some "not-a-date"]]⟩ "Date" = none :=
  ⟨fun _ => rfl, rfl⟩

/-- C6: with a resolved action-taken column a row counts as closed exactly
when its action value, missing filled with `""` and whitespace-stripped, is
non-empty — the tally is `(n, n - closed, closed)` with `closed` that count;
and on the column values `["", "closed on 3/1", "  ", "yes"]` the tally is
`total = 4, open = 2, closed = 2`. -/
theorem c6_closed_iff_nonblank_action :
    (∀ (df : DataFrame) (c : String),
        resolveCol df ["Action Taken", "Action taken"] = some c →
        computeOpenClosedObservations df =
          (df.rows.length,
           df.rows.length -
             (df.col c).countP (fun v => (pyStrip (v.getD "").toList).length > 0),
           (df.col c).countP (fun v => (pyStrip (v.getD "").toList).length > 0))) ∧
    computeOpenClosedObservations
      ⟨["Action Taken"], [[some ""], [some "closed on 3/1"], [some "  "], [some "yes"]]⟩
      = (4, 2, 2) := by
  constructor
  · intro df c hc
    rw [computeOpenClosed_col df c hc, List.countP_map]
    rfl
  · decide

/-- C6 witness: `c6_closed_iff_nonblank_action` instantiated on a 2-row
table resolving the lower-case `"Action taken"` candidate, one non-blank
action and one missing action: one closed, one open. -/
theorem c6_closed_iff_nonblank_action_witness :
    computeOpenClosedObservations ⟨["Action taken"], [[some "fixed"], [none]]⟩
      = (2, 1, 1) := by
  rw [c6_closed_iff_nonblank_action.1 ⟨["Action taken"], [[some "fixed"], [none]]⟩
    "Action taken" (by decide)]
  decide

/-- C9: with both source files absent the run succeeds and the summary
reports a zero-row observations block, a zero-row incidents block, a
disabled model, an empty assets mapping, and no image files are written. -/
theorem c9_both_sources_missing :
    (∀ fit : DataFrame → List String → List Bool → ℚ,
      runMain none none fit =
        Except.ok ⟨ObsBlock.missing, IncBlock.missing,
          ⟨false, "LogisticRegression", "high_risk", 0, none⟩, [], []⟩) ∧
    ObsBlock.missing.rowsReported = 0 ∧ IncBlock.missing.rowsReported = 0 :=
  ⟨fun _ => rfl, rfl, rfl⟩

/-- C10: in both branches of the tally, the reported total equals the row
count and `open + closed = total` (the counts are naturals, hence
non-negative by construction). -/
theorem c10_tally_partition (df : DataFrame) :
    (computeOpenClosedObservations df).1 = df.rows.length ∧
    (computeOpenClosedObservations df).2.1 + (computeOpenClosedObservations df).2.2 =
      (computeOpenClosedObservations df).1 := by
  cases hc : resolveCol df ["Action Taken", "Action taken"] with
  | none => rw [computeOpenClosed_no_col df hc]; exact ⟨rfl, by simp⟩
  | some c =>
    rw [computeOpenClosed_col df c hc]
    refine ⟨rfl, ?_⟩
    have hle : ((df.col c).map (fun v => v.getD "")).countP
        (fun s => (pyStrip s.toList).length > 0) ≤ df.rows.length := by
      have h1 := @List.countP_le_length _
        (fun s => decide ((pyStrip s.toList).length > 0))
        ((df.col c).map (fun v => v.getD ""))
      rw [List.length_map, DataFrame.col_length] at h1
      exact h1
    exact Nat.sub_add_cancel hle

/-- C10 witness: `c10_tally_partition` at a concrete 3-row table with an
action-taken column (one blank, one missing, one non-blank action). -/
theorem c10_tally_partition_witness :
    (computeOpenClosedObservations
      ⟨["Action Taken"], [[some ""], [none], [some "done"]]⟩).1 = 3 ∧
    (computeOpenClosedObservations
      ⟨["Action Taken"], [[some ""], [none], [some "done"]]⟩).2.1 +
    (computeOpenClosedObservations
      ⟨["Action Taken"], [[some ""], [none], [some "done"]]⟩).2.2 =
    (computeOpenClosedObservations
      ⟨["Action Taken"], [[some ""], [none], [some "done"]]⟩).1 :=
  c10_tally_partition ⟨["Action Taken"], [[some ""], [none], [some "done"]]⟩

/-- C7: the bar-chart pipeline drops missing values, counts value
frequencies, keeps at most the top 10 categories (every kept category's
count is at least every dropped category's count), and plots them in
ascending order of count; on `[A, A, A, B, B, C]` the plotted order is
`C (1), B (2), A (3)`. -/
theorem c7_bar_chart_pipeline :
    (∀ cells : List (Option String), List.Sorted byCountLE (plotBarCounts cells 10)) ∧
    (∀ (cells : List (Option String)) (v : String) (k : Nat),
        (v, k) ∈ plotBarCounts cells 10 →
        k = (cells.filterMap id).count v ∧ v ∈ cells.filterMap id) ∧
    (∀ cells : List (Option String), (plotBarCounts cells 10).length ≤ 10) ∧
    (∀ (cells : List (Option String)) (v w : String) (k j : Nat),
        (v, k) ∈ plotBarCounts cells 10 →
        (w, j) ∈ valueCounts (cells.filterMap id) →
        (w, j) ∉ plotBarCounts cells 10 → j ≤ k) ∧
    plotBarCounts [some "A", some "A", some "A", some "B", some "B", some "C"] 10
      = [("C", 1), ("B", 2), ("A", 3)] := by
  refine ⟨fun cells => plotBarCounts_sorted cells 10,
    fun cells v k h => mem_plotBarCounts h,
    fun cells => plotBarCounts_length_le cells 10,
    fun cells v w k j hin hw hout => plotBarCounts_dominates hin hw hout,
    by decide⟩

/-- C7 witness: `c7_bar_chart_pipeline` applied to the bar `("A", 3)` of the
example column — its count is the frequency of `"A"` among the non-missing
values. -/
theorem c7_bar_chart_pipeline_witness :
    3 = ([some "A", some "A", some "A", some "B", some "B", some "C"].filterMap
          (id : Option String → Option String)).count "A" ∧
    "A" ∈ [some "A", some "A", some "A", some "B", some "B", some "C"].filterMap
          (id : Option String → Option String) :=
  c7_bar_chart_pipeline.2.1 [some "A", some "A", some "A", some "B", some "B", some "C"]
    "A" 3 (by decide)

/-- C8: the time-series computation parses each cell as a date (unparseable
entries coerce to missing and are discarded), groups the remaining values by
calendar date (each date appears once), counts occurrences per day, and
sorts the series chronologically; on
`["2024-01-01", "2024-01-01", "not-a-date", "2024-01-02"]` the series is
count 2 on 2024-01-01 and count 1 on 2024-01-02. -/
theorem c8_time_series_pipeline :
    (∀ cells : List (Option String), List.Sorted byDateLE (incidentDateCounts cells)) ∧
    (∀ cells : List (Option String), ((incidentDateCounts cells).map Prod.fst).Nodup) ∧
    (∀ (cells : List (Option String)) (d k : Nat),
        (d, k) ∈ incidentDateCounts cells →
        k = (validDates cells).count d ∧ d ∈ validDates cells) ∧
    (∀ (cells : List (Option String)) (d : Nat),
        d ∈ validDates cells →
        (d, (validDates cells).count d) ∈ incidentDateCounts cells) ∧
    parseDate "not-a-date" = none ∧
    incidentDateCounts [some "2024-01-01", some "2024-01-01", some "not-a-date", some "2024-01-02"]
      = [(20240101, 2), (20240102, 1)] := by
  refine ⟨incidentDateCounts_sorted,
    incidentDateCounts_keys_nodup,
    fun cells d k h => mem_incidentDateCounts h,
    fun cells d h => incidentDateCounts_complete h,
    by decide, by decide⟩

/-- C8 witness: `c8_time_series_pipeline` applied to the date 2024-01-01 of
the example column — the date occurs among the valid dates, so the series
carries its count. -/
theorem c8_time_series_pipeline_witness :
    (20240101,
      (validDates [some "2024-01-01", some "2024-01-01", some "not-a-date",
        some "2024-01-02"]).count 20240101)
      ∈ incidentDateCounts [some "2024-01-01", some "2024-01-01", some "not-a-date",
        some "2024-01-02"] :=
  c8_time_series_pipeline.2.2.2.1
    [some "2024-01-01", some "2024-01-01", some "not-a-date", some "2024-01-02"]
    20240101 (by decide)
